import Mathlib

/-!
Shallow embedding of the motor-constraint subsystem of the repository,
declared in src/src/chrono/physics/ChLinkMotor.h.

Doubles are modelled as rationals.  Methods whose bodies are inline in the
header are translated directly; methods whose bodies live in the (absent)
ChLinkMotor.cpp are modelled from the spec and marked as such in their doc
comments.  Each C++ class is flattened into one Lean structure carrying the
fields of its base classes that the claims mention (reaction force/torque and
the lock mask from ChLinkMateGeneric, the cached relative coordinate from
ChLinkMotorLinear / ChLinkMotorRotation).
-/

/-- A rheonomic motion function of time (ChFunction): value and first
derivative.  Get_y and Get_y_dx are the Chrono accessor names. -/
structure ChFunction where
  Get_y : ℚ → ℚ
  Get_y_dx : ℚ → ℚ

/-- ChFunction_Const: constant value, zero derivative. -/
def ChFunction_Const (c : ℚ) : ChFunction :=
  { Get_y := fun _ => c, Get_y_dx := fun _ => 0 }

/-- ChFunction_Ramp: linear ramp y0 + ang * t, derivative ang. -/
def ChFunction_Ramp (y0 ang : ℚ) : ChFunction :=
  { Get_y := fun t => y0 + ang * t, Get_y_dx := fun _ => ang }

/-- A 3d vector (ChVector), used for react_force and react_torque. -/
structure ChVector3 where
  x : ℚ
  y : ℚ
  z : ℚ
deriving DecidableEq

/-- The lock mask of a ChLinkMateGeneric: which of the six relative degrees
of freedom between frame 1 and frame 2 are constrained. -/
structure ChLinkMask where
  c_x : Bool
  c_y : Bool
  c_z : Bool
  c_rx : Bool
  c_ry : Bool
  c_rz : Bool
deriving DecidableEq

/-- Number of guide constraint rows a linear motor contributes: one row per
constrained non-actuated degree of freedom (the actuated x translation is
handled by the motor row itself, not by the guide). -/
def maskNumGuideRows (mask : ChLinkMask) : Nat :=
  (if mask.c_y then 1 else 0) + (if mask.c_z then 1 else 0) +
  (if mask.c_rx then 1 else 0) + (if mask.c_ry then 1 else 0) +
  (if mask.c_rz then 1 else 0)

/-- Number of spindle constraint rows a rotational motor contributes: one row
per constrained non-actuated degree of freedom (the actuated z rotation is
handled by the motor row itself, not by the spindle). -/
def maskNumSpindleRows (mask : ChLinkMask) : Nat :=
  (if mask.c_x then 1 else 0) + (if mask.c_y then 1 else 0) +
  (if mask.c_z then 1 else 0) + (if mask.c_rx then 1 else 0) +
  (if mask.c_ry then 1 else 0)

/-- ChLinkMotorLinear::GuideConstraint, the lock-pattern variants of a linear
motor (header, lines 62-66). -/
inductive GuideConstraint
  | FREE
  | PRISMATIC
  | SPHERICAL
deriving DecidableEq

/-- ChLinkMotorRotation::SpindleConstraint, the lock-pattern variants of a
rotational motor (header, lines 395-400). -/
inductive SpindleConstraint
  | FREE
  | REVOLUTE
  | CYLINDRICAL
  | OLDHAM
deriving DecidableEq

/-- Modelled from the spec: body of
ChLinkMotorLinear::SetGuideConstraint(bool mc_y, bool mc_z, bool mc_rx,
bool mc_ry, bool mc_rz) is in the missing ChLinkMotor.cpp.  The header
signature exposes no parameter for the x translation and its doc comment says
the x direction is the motorized one and is never affected by this option, so
the setter writes the five non-actuated flags and leaves c_x untouched. -/
def setGuideConstraintFlags (mask : ChLinkMask)
    (mc_y mc_z mc_rx mc_ry mc_rz : Bool) : ChLinkMask :=
  { mask with c_y := mc_y, c_z := mc_z, c_rx := mc_rx, c_ry := mc_ry, c_rz := mc_rz }

/-- Modelled from the spec: body of
ChLinkMotorLinear::SetGuideConstraint(GuideConstraint) is in the missing
ChLinkMotor.cpp.  The spec fixes the guide row counts 0, 2, 4 for FREE,
PRISMATIC, SPHERICAL; the variants are realized through the five-flag setter,
so the actuated x translation stays untouched. -/
def setGuideConstraintMode (mask : ChLinkMask) : GuideConstraint → ChLinkMask
  | GuideConstraint.FREE => setGuideConstraintFlags mask false false false false false
  | GuideConstraint.PRISMATIC => setGuideConstraintFlags mask true true false false false
  | GuideConstraint.SPHERICAL => setGuideConstraintFlags mask true true true true false

/-- Modelled from the spec: body of
ChLinkMotorRotation::SetSpindleConstraint(bool mc_x, bool mc_y, bool mc_z,
bool mc_rx, bool mc_ry) is in the missing ChLinkMotor.cpp.  The header
signature exposes no parameter for the z rotation and its doc comment says
the Z direction is the motorized one and is never affected by this option, so
the setter writes the five non-actuated flags and leaves c_rz untouched. -/
def setSpindleConstraintFlags (mask : ChLinkMask)
    (mc_x mc_y mc_z mc_rx mc_ry : Bool) : ChLinkMask :=
  { mask with c_x := mc_x, c_y := mc_y, c_z := mc_z, c_rx := mc_rx, c_ry := mc_ry }

/-- Modelled from the spec: body of
ChLinkMotorRotation::SetSpindleConstraint(SpindleConstraint) is in the
missing ChLinkMotor.cpp.  The variants are realized through the five-flag
setter, so the actuated z rotation stays untouched. -/
def setSpindleConstraintMode (mask : ChLinkMask) : SpindleConstraint → ChLinkMask
  | SpindleConstraint.FREE => setSpindleConstraintFlags mask false false false false false
  | SpindleConstraint.REVOLUTE => setSpindleConstraintFlags mask true true true true true
  | SpindleConstraint.CYLINDRICAL => setSpindleConstraintFlags mask true true false true true
  | SpindleConstraint.OLDHAM => setSpindleConstraintFlags mask false false true true true

/-- Modelled from the spec: default lock mask of a linear motor.  The header
doc says that by default the link acts as a pure prismatic guide; the actuated
x translation is not part of the guide pattern. -/
def defaultGuideMask : ChLinkMask :=
  { c_x := false, c_y := true, c_z := true, c_rx := true, c_ry := true, c_rz := true }

/-- Modelled from the spec: default lock mask of a rotational motor.  The
header doc says that by default the link acts as a bearing, like a revolute
joint; the actuated z rotation is not part of the spindle pattern. -/
def defaultSpindleMask : ChLinkMask :=
  { c_x := true, c_y := true, c_z := true, c_rx := true, c_ry := true, c_rz := false }

/-- One invocation of a public guide lock-pattern setter of a linear motor
(either overload of SetGuideConstraint). -/
inductive GuideOp
  | mode (g : GuideConstraint)
  | flags (mc_y mc_z mc_rx mc_ry mc_rz : Bool)

/-- Apply one guide setter invocation to the mask. -/
def applyGuideOp (mask : ChLinkMask) : GuideOp → ChLinkMask
  | GuideOp.mode g => setGuideConstraintMode mask g
  | GuideOp.flags a b c d e => setGuideConstraintFlags mask a b c d e

/-- Apply a sequence of guide setter invocations, oldest first. -/
def runGuideOps (mask : ChLinkMask) (ops : List GuideOp) : ChLinkMask :=
  ops.foldl applyGuideOp mask

/-- One invocation of a public spindle lock-pattern setter of a rotational
motor (either overload of SetSpindleConstraint). -/
inductive SpindleOp
  | mode (s : SpindleConstraint)
  | flags (mc_x mc_y mc_z mc_rx mc_ry : Bool)

/-- Apply one spindle setter invocation to the mask. -/
def applySpindleOp (mask : ChLinkMask) : SpindleOp → ChLinkMask
  | SpindleOp.mode s => setSpindleConstraintMode mask s
  | SpindleOp.flags a b c d e => setSpindleConstraintFlags mask a b c d e

/-- Apply a sequence of spindle setter invocations, oldest first. -/
def runSpindleOps (mask : ChLinkMask) (ops : List SpindleOp) : ChLinkMask :=
  ops.foldl applySpindleOp mask

/-- ChVariablesGeneric: a generic solver variable block with its own number
of scalar degrees of freedom and (diagonal) mass. -/
structure ChVariablesGeneric where
  ndof : Nat
  mass : ℚ
deriving DecidableEq

/-- ChLinkMotorLinearPosition (header, lines 140-195), flattened with the
inherited fields the claims mention: current simulation time and reaction
(from ChLink), the lock mask (from ChLinkMateGeneric), the cached relative
coordinate and its derivatives (from ChLinkMotorLinear), the position
function f_pos and the offset pos_offset. -/
structure ChLinkMotorLinearPosition where
  ChTime : ℚ
  mask : ChLinkMask
  mpos : ℚ
  mpos_dt : ℚ
  mpos_dtdt : ℚ
  react_force : ChVector3
  react_torque : ChVector3
  f_pos : ChFunction
  pos_offset : ℚ

/-- Inline in the header: SetMotionFunction stores the function. -/
def ChLinkMotorLinearPosition.SetMotionFunction (m : ChLinkMotorLinearPosition)
    (mf : ChFunction) : ChLinkMotorLinearPosition :=
  { m with f_pos := mf }

/-- Inline in the header: GetMotionFunction returns the stored function. -/
def ChLinkMotorLinearPosition.GetMotionFunction (m : ChLinkMotorLinearPosition) : ChFunction :=
  m.f_pos

/-- Inline in the header: SetMotionOffset stores the offset. -/
def ChLinkMotorLinearPosition.SetMotionOffset (m : ChLinkMotorLinearPosition)
    (mo : ℚ) : ChLinkMotorLinearPosition :=
  { m with pos_offset := mo }

/-- Inline in the header: GetMotionOffset returns the stored offset. -/
def ChLinkMotorLinearPosition.GetMotionOffset (m : ChLinkMotorLinearPosition) : ℚ :=
  m.pos_offset

/-- Inline in the header: GetActualPos returns the cached relative coordinate. -/
def ChLinkMotorLinearPosition.GetActualPos (m : ChLinkMotorLinearPosition) : ℚ :=
  m.mpos

/-- Inline in the header (line 173): GetActualForce returns react_force.x(). -/
def ChLinkMotorLinearPosition.GetActualForce (m : ChLinkMotorLinearPosition) : ℚ :=
  m.react_force.x

/-- Modelled from the spec: the violation of the extra motor constraint row
(computed in the missing ChLinkMotor.cpp) is actual(t) - f(t) - offset. -/
def ChLinkMotorLinearPosition.constraintViolation (m : ChLinkMotorLinearPosition)
    (t : ℚ) : ℚ :=
  m.mpos - m.f_pos.Get_y t - m.pos_offset

/-- Modelled from the spec: the Jacobian time-derivative term Ct of the motor
row is minus the derivative of f at the current time. -/
def ChLinkMotorLinearPosition.motorCt (m : ChLinkMotorLinearPosition) : ℚ :=
  -(m.f_pos.Get_y_dx m.ChTime)

/-- Modelled from the spec: IntLoadConstraint_Ct (declared at header line 181,
body in the missing ChLinkMotor.cpp) adds c times the Ct term into the Qc
vector at the offset of the motor row. -/
def ChLinkMotorLinearPosition.IntLoadConstraint_Ct (m : ChLinkMotorLinearPosition)
    (off : Nat) (Qc : Nat → ℚ) (c : ℚ) : Nat → ℚ :=
  fun i => if i = off then Qc i + c * m.motorCt else Qc i

/-- ChLinkMotorRotationAngle (header, lines 470-525), flattened like its
linear counterpart; the cached relative coordinate is the rotation mrot about
the frame z axis, the function is f_rot and the offset rot_offset. -/
structure ChLinkMotorRotationAngle where
  ChTime : ℚ
  mask : ChLinkMask
  mrot : ℚ
  mrot_dt : ℚ
  mrot_dtdt : ℚ
  react_force : ChVector3
  react_torque : ChVector3
  f_rot : ChFunction
  rot_offset : ℚ

/-- Inline in the header: SetAngleFunction stores the function. -/
def ChLinkMotorRotationAngle.SetAngleFunction (m : ChLinkMotorRotationAngle)
    (mf : ChFunction) : ChLinkMotorRotationAngle :=
  { m with f_rot := mf }

/-- Inline in the header: GetAngleFunction returns the stored function. -/
def ChLinkMotorRotationAngle.GetAngleFunction (m : ChLinkMotorRotationAngle) : ChFunction :=
  m.f_rot

/-- Inline in the header: SetMotionOffset stores the offset. -/
def ChLinkMotorRotationAngle.SetMotionOffset (m : ChLinkMotorRotationAngle)
    (mo : ℚ) : ChLinkMotorRotationAngle :=
  { m with rot_offset := mo }

/-- Inline in the header: GetMotionOffset returns the stored offset. -/
def ChLinkMotorRotationAngle.GetMotionOffset (m : ChLinkMotorRotationAngle) : ℚ :=
  m.rot_offset

/-- Inline in the header: GetActualRot returns the cached relative rotation. -/
def ChLinkMotorRotationAngle.GetActualRot (m : ChLinkMotorRotationAngle) : ℚ :=
  m.mrot

/-- Inline in the header (line 503): GetActualTorque returns react_torque.x(). -/
def ChLinkMotorRotationAngle.GetActualTorque (m : ChLinkMotorRotationAngle) : ℚ :=
  m.react_torque.x

/-- Modelled from the spec: the violation of the extra motor constraint row
is actual(t) - f(t) - offset. -/
def ChLinkMotorRotationAngle.constraintViolation (m : ChLinkMotorRotationAngle)
    (t : ℚ) : ℚ :=
  m.mrot - m.f_rot.Get_y t - m.rot_offset

/-- Modelled from the spec: the Ct term of the motor row is minus the
derivative of f at the current time. -/
def ChLinkMotorRotationAngle.motorCt (m : ChLinkMotorRotationAngle) : ℚ :=
  -(m.f_rot.Get_y_dx m.ChTime)

/-- Modelled from the spec: IntLoadConstraint_Ct (declared at header line 511,
body in the missing ChLinkMotor.cpp) adds c times the Ct term into the Qc
vector at the offset of the motor row. -/
def ChLinkMotorRotationAngle.IntLoadConstraint_Ct (m : ChLinkMotorRotationAngle)
    (off : Nat) (Qc : Nat → ℚ) (c : ℚ) : Nat → ℚ :=
  fun i => if i = off then Qc i + c * m.motorCt else Qc i

/-- ChLinkMotorLinearSpeed (header, lines 219-307), flattened.  The C++
member named variable (a ChVariablesGeneric, header line 225) is rendered as
variable_block because variable is a Lean keyword; aux_dt and aux_dtdt are the
auxiliary integration states and avoid_position_drift the drift flag. -/
structure ChLinkMotorLinearSpeed where
  ChTime : ℚ
  mask : ChLinkMask
  mpos : ℚ
  mpos_dt : ℚ
  mpos_dtdt : ℚ
  react_force : ChVector3
  react_torque : ChVector3
  f_speed : ChFunction
  pos_offset : ℚ
  variable_block : ChVariablesGeneric
  aux_dt : ℚ
  aux_dtdt : ℚ
  avoid_position_drift : Bool

/-- Inline in the header: SetSpeedFunction stores the function. -/
def ChLinkMotorLinearSpeed.SetSpeedFunction (m : ChLinkMotorLinearSpeed)
    (mf : ChFunction) : ChLinkMotorLinearSpeed :=
  { m with f_speed := mf }

/-- Inline in the header: GetSpeedFunction returns the stored function. -/
def ChLinkMotorLinearSpeed.GetSpeedFunction (m : ChLinkMotorLinearSpeed) : ChFunction :=
  m.f_speed

/-- Inline in the header: SetMotionOffset stores the offset. -/
def ChLinkMotorLinearSpeed.SetMotionOffset (m : ChLinkMotorLinearSpeed)
    (mo : ℚ) : ChLinkMotorLinearSpeed :=
  { m with pos_offset := mo }

/-- Inline in the header: GetMotionOffset returns the stored offset. -/
def ChLinkMotorLinearSpeed.GetMotionOffset (m : ChLinkMotorLinearSpeed) : ℚ :=
  m.pos_offset

/-- Inline in the header (line 258): SetAvoidPositionDrift assigns only the
avoid_position_drift flag. -/
def ChLinkMotorLinearSpeed.SetAvoidPositionDrift (m : ChLinkMotorLinearSpeed)
    (mb : Bool) : ChLinkMotorLinearSpeed :=
  { m with avoid_position_drift := mb }

/-- Inline in the header (line 261): GetAvoidPositionDrift reads the flag. -/
def ChLinkMotorLinearSpeed.GetAvoidPositionDrift (m : ChLinkMotorLinearSpeed) : Bool :=
  m.avoid_position_drift

/-- Inline in the header (line 265): GetActualForce returns react_force.x(). -/
def ChLinkMotorLinearSpeed.GetActualForce (m : ChLinkMotorLinearSpeed) : ℚ :=
  m.react_force.x

/-- Inline in the header (line 274): GetDOF returns 1 unconditionally. -/
def ChLinkMotorLinearSpeed.GetDOF (_ : ChLinkMotorLinearSpeed) : Int :=
  1

/-- Slots the motor occupies in the integrator state vector: one
position-like coordinate and one speed per reported degree of freedom. -/
def ChLinkMotorLinearSpeed.intStateSlots (m : ChLinkMotorLinearSpeed) : Int :=
  m.GetDOF + m.GetDOF

/-- Modelled from the spec: the Ct term of the differential constraint row is
minus the prescribed speed at the current time. -/
def ChLinkMotorLinearSpeed.motorCt (m : ChLinkMotorLinearSpeed) : ℚ :=
  -(m.f_speed.Get_y m.ChTime)

/-- Modelled from the spec: IntLoadConstraint_Ct (declared at header line 285,
body in the missing ChLinkMotor.cpp) adds c times the Ct term into the Qc
vector at the offset of the differential row. -/
def ChLinkMotorLinearSpeed.IntLoadConstraint_Ct (m : ChLinkMotorLinearSpeed)
    (off : Nat) (Qc : Nat → ℚ) (c : ℚ) : Nat → ℚ :=
  fun i => if i = off then Qc i + c * m.motorCt else Qc i

/-- Modelled from the spec: InjectVariables (declared at header line 296, body
in the missing ChLinkMotor.cpp) registers exactly the own variable
block with the system descriptor. -/
def ChLinkMotorLinearSpeed.InjectVariables (m : ChLinkMotorLinearSpeed)
    (mdescriptor : List ChVariablesGeneric) : List ChVariablesGeneric :=
  mdescriptor ++ [m.variable_block]

/-- Modelled from the spec: after the solve, the resolved Lagrange multiplier
of the differential constraint row is stored back as the x component of the
reaction force read by GetActualForce. -/
def ChLinkMotorLinearSpeed.loadReaction (m : ChLinkMotorLinearSpeed)
    (L : ℚ) : ChLinkMotorLinearSpeed :=
  { m with react_force := { m.react_force with x := L } }

/-- Modelled from the spec: constructor of ChLinkMotorLinearSpeed (body in
the missing ChLinkMotor.cpp).  Header doc: default speed function is the
constant 1 m/s, default avoid_position_drift is true; spec: the auxiliary
variable block has one scalar degree of freedom with mass 1. -/
def ChLinkMotorLinearSpeed.init : ChLinkMotorLinearSpeed :=
  { ChTime := 0, mask := defaultGuideMask,
    mpos := 0, mpos_dt := 0, mpos_dtdt := 0,
    react_force := { x := 0, y := 0, z := 0 },
    react_torque := { x := 0, y := 0, z := 0 },
    f_speed := ChFunction_Const 1, pos_offset := 0,
    variable_block := { ndof := 1, mass := 1 },
    aux_dt := 0, aux_dtdt := 0, avoid_position_drift := true }

/-- ChLinkMotorRotationSpeed (header, lines 549-637), flattened like its
linear counterpart; the C++ member named variable is rendered as
variable_block because variable is a Lean keyword. -/
structure ChLinkMotorRotationSpeed where
  ChTime : ℚ
  mask : ChLinkMask
  mrot : ℚ
  mrot_dt : ℚ
  mrot_dtdt : ℚ
  react_force : ChVector3
  react_torque : ChVector3
  f_speed : ChFunction
  rot_offset : ℚ
  variable_block : ChVariablesGeneric
  aux_dt : ℚ
  aux_dtdt : ℚ
  avoid_angle_drift : Bool

/-- Inline in the header: SetSpeedFunction stores the function. -/
def ChLinkMotorRotationSpeed.SetSpeedFunction (m : ChLinkMotorRotationSpeed)
    (mf : ChFunction) : ChLinkMotorRotationSpeed :=
  { m with f_speed := mf }

/-- Inline in the header: GetSpeedFunction returns the stored function. -/
def ChLinkMotorRotationSpeed.GetSpeedFunction (m : ChLinkMotorRotationSpeed) : ChFunction :=
  m.f_speed

/-- Inline in the header: SetAngleOffset stores the offset. -/
def ChLinkMotorRotationSpeed.SetAngleOffset (m : ChLinkMotorRotationSpeed)
    (mo : ℚ) : ChLinkMotorRotationSpeed :=
  { m with rot_offset := mo }

/-- Inline in the header: GetAngleOffset returns the stored offset. -/
def ChLinkMotorRotationSpeed.GetAngleOffset (m : ChLinkMotorRotationSpeed) : ℚ :=
  m.rot_offset

/-- Inline in the header (line 588): SetAvoidAngleDrift assigns only the
avoid_angle_drift flag. -/
def ChLinkMotorRotationSpeed.SetAvoidAngleDrift (m : ChLinkMotorRotationSpeed)
    (mb : Bool) : ChLinkMotorRotationSpeed :=
  { m with avoid_angle_drift := mb }

/-- Inline in the header (line 591): GetAvoidAngleDrift reads the flag. -/
def ChLinkMotorRotationSpeed.GetAvoidAngleDrift (m : ChLinkMotorRotationSpeed) : Bool :=
  m.avoid_angle_drift

/-- Inline in the header (line 595): GetActualTorque returns react_torque.x(). -/
def ChLinkMotorRotationSpeed.GetActualTorque (m : ChLinkMotorRotationSpeed) : ℚ :=
  m.react_torque.x

/-- Inline in the header (line 604): GetDOF returns 1 unconditionally. -/
def ChLinkMotorRotationSpeed.GetDOF (_ : ChLinkMotorRotationSpeed) : Int :=
  1

/-- Slots the motor occupies in the integrator state vector: one
position-like coordinate and one speed per reported degree of freedom. -/
def ChLinkMotorRotationSpeed.intStateSlots (m : ChLinkMotorRotationSpeed) : Int :=
  m.GetDOF + m.GetDOF

/-- Modelled from the spec: the Ct term of the differential constraint row is
minus the prescribed angular speed at the current time. -/
def ChLinkMotorRotationSpeed.motorCt (m : ChLinkMotorRotationSpeed) : ℚ :=
  -(m.f_speed.Get_y m.ChTime)

/-- Modelled from the spec: IntLoadConstraint_Ct (declared at header line 615,
body in the missing ChLinkMotor.cpp) adds c times the Ct term into the Qc
vector at the offset of the differential row. -/
def ChLinkMotorRotationSpeed.IntLoadConstraint_Ct (m : ChLinkMotorRotationSpeed)
    (off : Nat) (Qc : Nat → ℚ) (c : ℚ) : Nat → ℚ :=
  fun i => if i = off then Qc i + c * m.motorCt else Qc i

/-- Modelled from the spec: InjectVariables (declared at header line 626, body
in the missing ChLinkMotor.cpp) registers exactly the own variable
block with the system descriptor. -/
def ChLinkMotorRotationSpeed.InjectVariables (m : ChLinkMotorRotationSpeed)
    (mdescriptor : List ChVariablesGeneric) : List ChVariablesGeneric :=
  mdescriptor ++ [m.variable_block]

/-- Modelled from the spec: after the solve, the resolved Lagrange multiplier
of the differential constraint row is stored back as the x component of the
reaction torque read by GetActualTorque. -/
def ChLinkMotorRotationSpeed.loadReaction (m : ChLinkMotorRotationSpeed)
    (L : ℚ) : ChLinkMotorRotationSpeed :=
  { m with react_torque := { m.react_torque with x := L } }

/-- Modelled from the spec: constructor of ChLinkMotorRotationSpeed (body in
the missing ChLinkMotor.cpp).  Header doc: default speed function is the
constant 1 rad/s, default avoid_angle_drift is true; spec: the auxiliary
variable block has one scalar degree of freedom with mass 1. -/
def ChLinkMotorRotationSpeed.init : ChLinkMotorRotationSpeed :=
  { ChTime := 0, mask := defaultSpindleMask,
    mrot := 0, mrot_dt := 0, mrot_dtdt := 0,
    react_force := { x := 0, y := 0, z := 0 },
    react_torque := { x := 0, y := 0, z := 0 },
    f_speed := ChFunction_Const 1, rot_offset := 0,
    variable_block := { ndof := 1, mass := 1 },
    aux_dt := 0, aux_dtdt := 0, avoid_angle_drift := true }

/-- ChLinkMotorLinearForce (header, lines 330-373), flattened: it applies a
force and is not a constraint, but it still inherits the cached relative
coordinate and the reaction bookkeeping fields. -/
structure ChLinkMotorLinearForce where
  ChTime : ℚ
  mask : ChLinkMask
  mpos : ℚ
  mpos_dt : ℚ
  mpos_dtdt : ℚ
  react_force : ChVector3
  react_torque : ChVector3
  f_force : ChFunction

/-- Inline in the header: SetForceFunction stores the function. -/
def ChLinkMotorLinearForce.SetForceFunction (m : ChLinkMotorLinearForce)
    (mf : ChFunction) : ChLinkMotorLinearForce :=
  { m with f_force := mf }

/-- Inline in the header: GetForceFunction returns the stored function. -/
def ChLinkMotorLinearForce.GetForceFunction (m : ChLinkMotorLinearForce) : ChFunction :=
  m.f_force

/-- Inline in the header (line 351): GetActualForce returns
f_force evaluated at the current simulation time, reading no other state. -/
def ChLinkMotorLinearForce.GetActualForce (m : ChLinkMotorLinearForce) : ℚ :=
  m.f_force.Get_y m.ChTime

/-- ChLinkMotorRotationTorque (header, lines 660-703), flattened. -/
structure ChLinkMotorRotationTorque where
  ChTime : ℚ
  mask : ChLinkMask
  mrot : ℚ
  mrot_dt : ℚ
  mrot_dtdt : ℚ
  react_force : ChVector3
  react_torque : ChVector3
  f_torque : ChFunction

/-- Inline in the header: SetTorqueFunction stores the function. -/
def ChLinkMotorRotationTorque.SetTorqueFunction (m : ChLinkMotorRotationTorque)
    (mf : ChFunction) : ChLinkMotorRotationTorque :=
  { m with f_torque := mf }

/-- Inline in the header: GetTorqueFunction returns the stored function. -/
def ChLinkMotorRotationTorque.GetTorqueFunction (m : ChLinkMotorRotationTorque) : ChFunction :=
  m.f_torque

/-- Inline in the header (line 681): GetActualTorque returns
f_torque evaluated at the current simulation time, reading no other state. -/
def ChLinkMotorRotationTorque.GetActualTorque (m : ChLinkMotorRotationTorque) : ℚ :=
  m.f_torque.Get_y m.ChTime

/-- A concrete linear position motor used to instantiate theorems with
hypotheses: the relative coordinate already equals f(t) + offset at t = 0. -/
def sampleLinearPosition : ChLinkMotorLinearPosition :=
  { ChTime := 0, mask := defaultGuideMask,
    mpos := 5, mpos_dt := 3, mpos_dtdt := 0,
    react_force := { x := 7, y := 0, z := 0 },
    react_torque := { x := 0, y := 0, z := 0 },
    f_pos := ChFunction_Ramp 2 3, pos_offset := 3 }

/-- A concrete rotational angle motor used to instantiate theorems with
hypotheses: the relative rotation already equals f(t) + offset at t = 0. -/
def sampleRotationAngle : ChLinkMotorRotationAngle :=
  { ChTime := 0, mask := defaultSpindleMask,
    mrot := 4, mrot_dt := 2, mrot_dtdt := 0,
    react_force := { x := 0, y := 0, z := 0 },
    react_torque := { x := 9, y := 0, z := 0 },
    f_rot := ChFunction_Ramp 3 2, rot_offset := 1 }

/-- A concrete linear force motor used to instantiate theorems with
hypotheses. -/
def sampleLinearForce : ChLinkMotorLinearForce :=
  { ChTime := 2, mask := defaultGuideMask,
    mpos := 1, mpos_dt := 1, mpos_dtdt := 0,
    react_force := { x := 11, y := 0, z := 0 },
    react_torque := { x := 0, y := 0, z := 0 },
    f_force := ChFunction_Ramp 1 3 }

/-- The same linear force motor with a different body motion and a different
stored reaction, but the same force function and time. -/
def sampleLinearForceMoved : ChLinkMotorLinearForce :=
  { ChTime := 2, mask := defaultGuideMask,
    mpos := 42, mpos_dt := -6, mpos_dtdt := 5,
    react_force := { x := -13, y := 8, z := 1 },
    react_torque := { x := 4, y := 4, z := 4 },
    f_force := ChFunction_Ramp 1 3 }

/-- A concrete rotational torque motor used to instantiate theorems with
hypotheses. -/
def sampleRotationTorque : ChLinkMotorRotationTorque :=
  { ChTime := 3, mask := defaultSpindleMask,
    mrot := 1, mrot_dt := 1, mrot_dtdt := 0,
    react_force := { x := 0, y := 0, z := 0 },
    react_torque := { x := 17, y := 0, z := 0 },
    f_torque := ChFunction_Ramp 2 5 }

/-- The same rotational torque motor with a different body motion and a
different stored reaction, but the same torque function and time. -/
def sampleRotationTorqueMoved : ChLinkMotorRotationTorque :=
  { ChTime := 3, mask := defaultSpindleMask,
    mrot := -9, mrot_dt := 100, mrot_dtdt := -3,
    react_force := { x := 6, y := 6, z := 6 },
    react_torque := { x := -21, y := 5, z := 2 },
    f_torque := ChFunction_Ramp 2 5 }

/-- Both SetGuideConstraint overloads leave the c_x flag of the mask
unchanged. -/
theorem applyGuideOp_c_x (mask : ChLinkMask) (op : GuideOp) :
    (applyGuideOp mask op).c_x = mask.c_x := by
  cases op with
  | mode g => cases g <;> rfl
  | flags a b c d e => rfl

/-- Any sequence of SetGuideConstraint calls leaves the c_x flag unchanged. -/
theorem runGuideOps_c_x (mask : ChLinkMask) (ops : List GuideOp) :
    (runGuideOps mask ops).c_x = mask.c_x := by
  induction ops generalizing mask with
  | nil => rfl
  | cons op rest ih =>
      show (runGuideOps (applyGuideOp mask op) rest).c_x = mask.c_x
      rw [ih (applyGuideOp mask op), applyGuideOp_c_x]

/-- Both SetSpindleConstraint overloads leave the c_rz flag of the mask
unchanged. -/
theorem applySpindleOp_c_rz (mask : ChLinkMask) (op : SpindleOp) :
    (applySpindleOp mask op).c_rz = mask.c_rz := by
  cases op with
  | mode s => cases s <;> rfl
  | flags a b c d e => rfl

/-- Any sequence of SetSpindleConstraint calls leaves the c_rz flag
unchanged. -/
theorem runSpindleOps_c_rz (mask : ChLinkMask) (ops : List SpindleOp) :
    (runSpindleOps mask ops).c_rz = mask.c_rz := by
  induction ops generalizing mask with
  | nil => rfl
  | cons op rest ih =>
      show (runSpindleOps (applySpindleOp mask op) rest).c_rz = mask.c_rz
      rw [ih (applySpindleOp mask op), applySpindleOp_c_rz]

/-- Claim C1: for the Position-mode motors (linear and rotational), the extra
constraint row has violation actual(t) - f(t) - offset and Ct term equal to
minus the time derivative of f; hence whenever the solver leaves the row
violation within tolerance, the actual relative coordinate equals
f(t) + offset within that tolerance. -/
theorem C1_position_motor_row_and_reproduction
    (mL : ChLinkMotorLinearPosition) (mR : ChLinkMotorRotationAngle)
    (t tol : ℚ)
    (hL : |mL.constraintViolation t| ≤ tol)
    (hR : |mR.constraintViolation t| ≤ tol) :
    mL.constraintViolation t = mL.GetActualPos - mL.f_pos.Get_y t - mL.pos_offset ∧
    mL.motorCt = -(mL.f_pos.Get_y_dx mL.ChTime) ∧
    |mL.GetActualPos - (mL.f_pos.Get_y t + mL.pos_offset)| ≤ tol ∧
    mR.constraintViolation t = mR.GetActualRot - mR.f_rot.Get_y t - mR.rot_offset ∧
    mR.motorCt = -(mR.f_rot.Get_y_dx mR.ChTime) ∧
    |mR.GetActualRot - (mR.f_rot.Get_y t + mR.rot_offset)| ≤ tol := by
  refine ⟨rfl, rfl, ?_, rfl, rfl, ?_⟩
  · have h : mL.GetActualPos - (mL.f_pos.Get_y t + mL.pos_offset) =
        mL.constraintViolation t := by
      simp only [ChLinkMotorLinearPosition.constraintViolation,
        ChLinkMotorLinearPosition.GetActualPos]
      ring
    rw [h]
    exact hL
  · have h : mR.GetActualRot - (mR.f_rot.Get_y t + mR.rot_offset) =
        mR.constraintViolation t := by
      simp only [ChLinkMotorRotationAngle.constraintViolation,
        ChLinkMotorRotationAngle.GetActualRot]
      ring
    rw [h]
    exact hR

/-- Witness for C1 at the sample motors, time 0 and tolerance 0. -/
theorem C1_position_motor_row_and_reproduction_witness :
    |sampleLinearPosition.constraintViolation 0| ≤ 0 ∧
    |sampleRotationAngle.constraintViolation 0| ≤ 0 ∧
    (|sampleLinearPosition.GetActualPos -
        (sampleLinearPosition.f_pos.Get_y 0 + sampleLinearPosition.pos_offset)| ≤ 0 ∧
     |sampleRotationAngle.GetActualRot -
        (sampleRotationAngle.f_rot.Get_y 0 + sampleRotationAngle.rot_offset)| ≤ 0) :=
  have hL : |sampleLinearPosition.constraintViolation 0| ≤ 0 := by
    rw [show sampleLinearPosition.constraintViolation 0 = 0 by
      norm_num [sampleLinearPosition, ChLinkMotorLinearPosition.constraintViolation,
        ChFunction_Ramp]]
    simp
  have hR : |sampleRotationAngle.constraintViolation 0| ≤ 0 := by
    rw [show sampleRotationAngle.constraintViolation 0 = 0 by
      norm_num [sampleRotationAngle, ChLinkMotorRotationAngle.constraintViolation,
        ChFunction_Ramp]]
    simp
  ⟨hL, hR,
   ⟨(C1_position_motor_row_and_reproduction sampleLinearPosition sampleRotationAngle
       0 0 hL hR).2.2.1,
    (C1_position_motor_row_and_reproduction sampleLinearPosition sampleRotationAngle
       0 0 hL hR).2.2.2.2.2⟩⟩

/-- Claim C2: for the Speed-mode motors (linear and rotational), the Ct term
loaded into the solver for the single differential constraint row is minus
the prescribed speed at the current time (only the entry at the row offset is
touched), and the reported reaction is the resolved multiplier on that row,
namely the x component of the stored reaction force / torque. -/
theorem C2_speed_motor_ct_and_reaction
    (mL : ChLinkMotorLinearSpeed) (mR : ChLinkMotorRotationSpeed)
    (off i : Nat) (Qc : Nat → ℚ) (c L : ℚ) (hi : i ≠ off) :
    mL.motorCt = -(mL.f_speed.Get_y mL.ChTime) ∧
    mL.IntLoadConstraint_Ct off Qc c off = Qc off + c * (-(mL.f_speed.Get_y mL.ChTime)) ∧
    mL.IntLoadConstraint_Ct off Qc c i = Qc i ∧
    mL.GetActualForce = mL.react_force.x ∧
    (mL.loadReaction L).GetActualForce = L ∧
    mR.motorCt = -(mR.f_speed.Get_y mR.ChTime) ∧
    mR.IntLoadConstraint_Ct off Qc c off = Qc off + c * (-(mR.f_speed.Get_y mR.ChTime)) ∧
    mR.IntLoadConstraint_Ct off Qc c i = Qc i ∧
    mR.GetActualTorque = mR.react_torque.x ∧
    (mR.loadReaction L).GetActualTorque = L := by
  refine ⟨rfl, ?_, ?_, rfl, rfl, rfl, ?_, ?_, rfl, rfl⟩
  · simp [ChLinkMotorLinearSpeed.IntLoadConstraint_Ct, ChLinkMotorLinearSpeed.motorCt]
  · simp [ChLinkMotorLinearSpeed.IntLoadConstraint_Ct, hi]
  · simp [ChLinkMotorRotationSpeed.IntLoadConstraint_Ct, ChLinkMotorRotationSpeed.motorCt]
  · simp [ChLinkMotorRotationSpeed.IntLoadConstraint_Ct, hi]

/-- Witness for C2 at the default-constructed speed motors, row offset 0,
untouched index 1, zero Qc vector, factor 1 and multiplier 5. -/
theorem C2_speed_motor_ct_and_reaction_witness :
    (1 : Nat) ≠ 0 ∧
    (ChLinkMotorLinearSpeed.init.IntLoadConstraint_Ct 0 (fun _ => 0) 1 1 = 0 ∧
     (ChLinkMotorLinearSpeed.init.loadReaction 5).GetActualForce = 5 ∧
     (ChLinkMotorRotationSpeed.init.loadReaction 5).GetActualTorque = 5) :=
  ⟨by decide,
   ⟨(C2_speed_motor_ct_and_reaction ChLinkMotorLinearSpeed.init
       ChLinkMotorRotationSpeed.init 0 1 (fun _ => 0) 1 5 (by decide)).2.2.1,
    (C2_speed_motor_ct_and_reaction ChLinkMotorLinearSpeed.init
       ChLinkMotorRotationSpeed.init 0 1 (fun _ => 0) 1 5 (by decide)).2.2.2.2.1,
    (C2_speed_motor_ct_and_reaction ChLinkMotorLinearSpeed.init
       ChLinkMotorRotationSpeed.init 0 1 (fun _ => 0) 1 5
       (by decide)).2.2.2.2.2.2.2.2.2⟩⟩

/-- Claim C3: for the Force / Torque-mode motors, the reported reaction is
exactly the driving function evaluated at the current simulation time: two
motors with the same function and time report the same value whatever their
body motion, lock mask and stored reaction are. -/
theorem C3_force_motor_reaction_exact
    (m m2 : ChLinkMotorLinearForce) (r r2 : ChLinkMotorRotationTorque)
    (hf : m.f_force = m2.f_force) (ht : m.ChTime = m2.ChTime)
    (hg : r.f_torque = r2.f_torque) (hs : r.ChTime = r2.ChTime) :
    m.GetActualForce = m.f_force.Get_y m.ChTime ∧
    m.GetActualForce = m2.GetActualForce ∧
    r.GetActualTorque = r.f_torque.Get_y r.ChTime ∧
    r.GetActualTorque = r2.GetActualTorque := by
  refine ⟨rfl, ?_, rfl, ?_⟩
  · simp [ChLinkMotorLinearForce.GetActualForce, hf, ht]
  · simp [ChLinkMotorRotationTorque.GetActualTorque, hg, hs]

/-- Witness for C3 at sample force and torque motors that differ in body
motion and stored reaction but share the function and the time. -/
theorem C3_force_motor_reaction_exact_witness :
    sampleLinearForce.f_force = sampleLinearForceMoved.f_force ∧
    sampleLinearForce.ChTime = sampleLinearForceMoved.ChTime ∧
    sampleRotationTorque.f_torque = sampleRotationTorqueMoved.f_torque ∧
    sampleRotationTorque.ChTime = sampleRotationTorqueMoved.ChTime ∧
    (sampleLinearForce.GetActualForce = sampleLinearForceMoved.GetActualForce ∧
     sampleRotationTorque.GetActualTorque = sampleRotationTorqueMoved.GetActualTorque) :=
  ⟨rfl, rfl, rfl, rfl,
   ⟨(C3_force_motor_reaction_exact sampleLinearForce sampleLinearForceMoved
       sampleRotationTorque sampleRotationTorqueMoved rfl rfl rfl rfl).2.1,
    (C3_force_motor_reaction_exact sampleLinearForce sampleLinearForceMoved
       sampleRotationTorque sampleRotationTorqueMoved rfl rfl rfl rfl).2.2.2⟩⟩

/-- Counterexample to claim C4: on the default-constructed linear Speed-mode
motor, calling SetAvoidPositionDrift(false) leaves GetDOF at 1 and the
auxiliary variable block in place, so the state-vector contribution shrinks
by 0, not by 2.  GetDOF is inline in the header (line 274) and returns 1
unconditionally, and the variable member (header line 225) exists for the
whole lifetime of the motor. -/
theorem C4_counterexample_toggle_does_not_shrink_state :
    (ChLinkMotorLinearSpeed.init.SetAvoidPositionDrift false).GetDOF = 1 ∧
    (ChLinkMotorLinearSpeed.init.SetAvoidPositionDrift false).variable_block =
      ChLinkMotorLinearSpeed.init.variable_block ∧
    ChLinkMotorLinearSpeed.init.intStateSlots -
      (ChLinkMotorLinearSpeed.init.SetAvoidPositionDrift false).intStateSlots = 0 ∧
    ¬ (ChLinkMotorLinearSpeed.init.intStateSlots -
        (ChLinkMotorLinearSpeed.init.SetAvoidPositionDrift false).intStateSlots = 2) :=
  ⟨rfl, rfl, rfl, by decide⟩

/-- Claim C4 as amended: disabling drift-avoidance does not change the
state-vector contribution of a Speed-mode motor.  GetDOF stays 1, the two
state slots stay allocated and the auxiliary variable block is untouched;
only the drift flag changes. -/
theorem C4_amended_toggle_keeps_state_size
    (s : ChLinkMotorLinearSpeed) (rs : ChLinkMotorRotationSpeed) :
    (s.SetAvoidPositionDrift false).GetDOF = s.GetDOF ∧
    (s.SetAvoidPositionDrift false).intStateSlots = s.intStateSlots ∧
    (s.SetAvoidPositionDrift false).variable_block = s.variable_block ∧
    (s.SetAvoidPositionDrift false).GetAvoidPositionDrift = false ∧
    (rs.SetAvoidAngleDrift false).GetDOF = rs.GetDOF ∧
    (rs.SetAvoidAngleDrift false).intStateSlots = rs.intStateSlots ∧
    (rs.SetAvoidAngleDrift false).variable_block = rs.variable_block ∧
    (rs.SetAvoidAngleDrift false).GetAvoidAngleDrift = false :=
  ⟨rfl, rfl, rfl, rfl, rfl, rfl, rfl, rfl⟩

/-- Claim C5: every Speed-mode motor reports exactly one extra generalized
coordinate (GetDOF is 1), InjectVariables registers exactly its own single
variable block with the descriptor, and on construction that block carries
one scalar degree of freedom with mass 1. -/
theorem C5_speed_motor_one_aux_variable
    (mL : ChLinkMotorLinearSpeed) (mR : ChLinkMotorRotationSpeed)
    (dL dR : List ChVariablesGeneric) :
    mL.GetDOF = 1 ∧
    mL.InjectVariables dL = dL ++ [mL.variable_block] ∧
    (mL.InjectVariables dL).length = dL.length + 1 ∧
    ChLinkMotorLinearSpeed.init.variable_block.ndof = 1 ∧
    ChLinkMotorLinearSpeed.init.variable_block.mass = 1 ∧
    mR.GetDOF = 1 ∧
    mR.InjectVariables dR = dR ++ [mR.variable_block] ∧
    (mR.InjectVariables dR).length = dR.length + 1 ∧
    ChLinkMotorRotationSpeed.init.variable_block.ndof = 1 ∧
    ChLinkMotorRotationSpeed.init.variable_block.mass = 1 := by
  refine ⟨rfl, rfl, ?_, rfl, rfl, rfl, rfl, ?_, rfl, rfl⟩
  · simp [ChLinkMotorLinearSpeed.InjectVariables]
  · simp [ChLinkMotorRotationSpeed.InjectVariables]

/-- Claim C6: on any starting mask, SetGuideConstraint with FREE, PRISMATIC,
SPHERICAL yields 0, 2, 4 guide constraint rows, also when the variants are
switched in sequence starting from the default mask. -/
theorem C6_guide_row_counts (mask : ChLinkMask) :
    maskNumGuideRows (setGuideConstraintMode mask GuideConstraint.FREE) = 0 ∧
    maskNumGuideRows (setGuideConstraintMode mask GuideConstraint.PRISMATIC) = 2 ∧
    maskNumGuideRows (setGuideConstraintMode mask GuideConstraint.SPHERICAL) = 4 ∧
    maskNumGuideRows (runGuideOps defaultGuideMask
      [GuideOp.mode GuideConstraint.FREE]) = 0 ∧
    maskNumGuideRows (runGuideOps defaultGuideMask
      [GuideOp.mode GuideConstraint.FREE, GuideOp.mode GuideConstraint.PRISMATIC]) = 2 ∧
    maskNumGuideRows (runGuideOps defaultGuideMask
      [GuideOp.mode GuideConstraint.FREE, GuideOp.mode GuideConstraint.PRISMATIC,
       GuideOp.mode GuideConstraint.SPHERICAL]) = 4 :=
  ⟨rfl, rfl, rfl, rfl, rfl, rfl⟩

/-- Claim C7: through the public lock-pattern setters, the actuated axis is
never among the constrained degrees of freedom: every sequence of
SetGuideConstraint calls on a linear motor leaves the x translation
unconstrained, every sequence of SetSpindleConstraint calls on a rotational
motor leaves the z rotation unconstrained, and exactly that one degree of
freedom is excluded: every combination of the other five flags is reachable
by a setter call. -/
theorem C7_actuated_axis_never_constrained :
    (∀ ops : List GuideOp, (runGuideOps defaultGuideMask ops).c_x = false) ∧
    (∀ a b c d e : Bool, ∃ ops : List GuideOp,
        runGuideOps defaultGuideMask ops =
          { c_x := false, c_y := a, c_z := b, c_rx := c, c_ry := d, c_rz := e }) ∧
    (∀ ops : List SpindleOp, (runSpindleOps defaultSpindleMask ops).c_rz = false) ∧
    (∀ a b c d e : Bool, ∃ ops : List SpindleOp,
        runSpindleOps defaultSpindleMask ops =
          { c_x := a, c_y := b, c_z := c, c_rx := d, c_ry := e, c_rz := false }) := by
  refine ⟨?_, ?_, ?_, ?_⟩
  · intro ops
    rw [runGuideOps_c_x]
    rfl
  · intro a b c d e
    exact ⟨[GuideOp.flags a b c d e], rfl⟩
  · intro ops
    rw [runSpindleOps_c_rz]
    rfl
  · intro a b c d e
    exact ⟨[SpindleOp.flags a b c d e], rfl⟩

/-- Claim C8: a newly constructed Speed-mode motor has drift-avoidance
enabled before any setter call. -/
theorem C8_default_drift_avoidance_enabled :
    ChLinkMotorLinearSpeed.init.GetAvoidPositionDrift = true ∧
    ChLinkMotorRotationSpeed.init.GetAvoidAngleDrift = true :=
  ⟨rfl, rfl⟩

/-- Claim C9: for every motor class, the function setter / getter pairs and
the offset setter / getter pairs round-trip exactly. -/
theorem C9_setter_getter_roundtrip (mf : ChFunction) (mo : ℚ)
    (p : ChLinkMotorLinearPosition) (s : ChLinkMotorLinearSpeed)
    (fo : ChLinkMotorLinearForce) (a : ChLinkMotorRotationAngle)
    (rs : ChLinkMotorRotationSpeed) (tq : ChLinkMotorRotationTorque) :
    (p.SetMotionFunction mf).GetMotionFunction = mf ∧
    (p.SetMotionOffset mo).GetMotionOffset = mo ∧
    (s.SetSpeedFunction mf).GetSpeedFunction = mf ∧
    (s.SetMotionOffset mo).GetMotionOffset = mo ∧
    (fo.SetForceFunction mf).GetForceFunction = mf ∧
    (a.SetAngleFunction mf).GetAngleFunction = mf ∧
    (a.SetMotionOffset mo).GetMotionOffset = mo ∧
    (rs.SetSpeedFunction mf).GetSpeedFunction = mf ∧
    (rs.SetAngleOffset mo).GetAngleOffset = mo ∧
    (tq.SetTorqueFunction mf).GetTorqueFunction = mf :=
  ⟨rfl, rfl, rfl, rfl, rfl, rfl, rfl, rfl, rfl, rfl⟩

/-- Claim C10: SetAvoidPositionDrift / SetAvoidAngleDrift modify only the
drift-avoidance flag: the speed function, the offset, the auxiliary variable
block and the auxiliary integration states are unchanged, and the getter then
returns the value just set. -/
theorem C10_set_avoid_drift_only_flag
    (s : ChLinkMotorLinearSpeed) (rs : ChLinkMotorRotationSpeed) (b : Bool) :
    (s.SetAvoidPositionDrift b).f_speed = s.f_speed ∧
    (s.SetAvoidPositionDrift b).pos_offset = s.pos_offset ∧
    (s.SetAvoidPositionDrift b).variable_block = s.variable_block ∧
    (s.SetAvoidPositionDrift b).aux_dt = s.aux_dt ∧
    (s.SetAvoidPositionDrift b).aux_dtdt = s.aux_dtdt ∧
    (s.SetAvoidPositionDrift b).ChTime = s.ChTime ∧
    (s.SetAvoidPositionDrift b).mask = s.mask ∧
    (s.SetAvoidPositionDrift b).GetAvoidPositionDrift = b ∧
    (rs.SetAvoidAngleDrift b).f_speed = rs.f_speed ∧
    (rs.SetAvoidAngleDrift b).rot_offset = rs.rot_offset ∧
    (rs.SetAvoidAngleDrift b).variable_block = rs.variable_block ∧
    (rs.SetAvoidAngleDrift b).aux_dt = rs.aux_dt ∧
    (rs.SetAvoidAngleDrift b).aux_dtdt = rs.aux_dtdt ∧
    (rs.SetAvoidAngleDrift b).ChTime = rs.ChTime ∧
    (rs.SetAvoidAngleDrift b).mask = rs.mask ∧
    (rs.SetAvoidAngleDrift b).GetAvoidAngleDrift = b :=
  ⟨rfl, rfl, rfl, rfl, rfl, rfl, rfl, rfl,
   rfl, rfl, rfl, rfl, rfl, rfl, rfl, rfl⟩
